import Mathlib

/-!
Shallow embedding of the divergence-diff extractor implemented by
`GitDiffReviewer` in `src/ai_code_review/ai_code_review.py`.

The embedding covers:
  * `_is_binary_file` (extension denylist),
  * `_decode_blob` (binary marker, utf-8 then gbk strict decoding, latin1
    lossy fallback, fallible blob read),
  * Python's `difflib.unified_diff` as invoked by `get_diff`
    (`SequenceMatcher` matching blocks, opcodes, grouped opcodes with
    three lines of context, and the unified-diff line formatting with
    `lineterm=''`),
  * Python's `str.splitlines(keepends=True)` and `str.strip()`,
  * the per-item processing loop of `get_diff` (effective path, first-wins
    deduplication, per-item exception isolation) and its final
    return/persist step.

Machine bytes are modelled as `Nat`; a fallible `data_stream.read()` is
modelled by the `readFails` flag on a blob, and the per-item `try/except`
by `Except Unit`.
-/

/-- A content blob: a path plus raw bytes.  `readFails` models an I/O fault
raised by `blob.data_stream.read()` (the blob's bytes are unreachable). -/
structure Blob where
  path : String
  data : List Nat
  readFails : Bool
deriving DecidableEq, Repr

/-- One entry of the `DiffIndex` enumerated by `fork_point.diff(feature_head)`:
the fields of a GitPython `Diff` object that `get_diff` reads. -/
structure DiffItem where
  a_path : Option String
  b_path : Option String
  renamed_file : Bool
  new_file : Bool
  deleted_file : Bool
  a_blob : Option Blob
  b_blob : Option Blob
deriving DecidableEq, Repr

/-- Python truthiness test for an optional string (`None` and `""` are falsy). -/
def pyFalsy : Option String → Bool
  | none => true
  | some s => s == ""

/-- Python `f"{x}"` rendering of an optional string (`None` prints as `"None"`). -/
def optPathStr : Option String → String
  | none => "None"
  | some s => s

/-- ASCII lower-casing, modelling `str.lower()` on the ASCII paths involved. -/
def strLower (s : String) : String := String.mk (s.data.map Char.toLower)

/-- `s.endswith(suffix)`, computed on the underlying character lists. -/
def strEndsWith (s suffix : String) : Bool := suffix.data.isSuffixOf s.data

/-- The fixed extension denylist of `_is_binary_file`. -/
def binary_extensions : List String :=
  [".jpg", ".jpeg", ".png", ".gif", ".pdf", ".zip", ".exe", ".dll", ".so", ".dylib", ".bin"]

/-- Extension test of `_is_binary_file`:
`any(blob.path.lower().endswith(ext) for ext in binary_extensions)`. -/
def isBinaryPath (p : String) : Bool :=
  binary_extensions.any (fun ext => strEndsWith (strLower p) ext)

/-- `GitDiffReviewer._is_binary_file`: `False` for a null blob or falsy path,
otherwise the extension denylist check. -/
def is_binary_file : Option Blob → Bool
  | none => false
  | some b => if b.path == "" then false else isBinaryPath b.path

/-- Continuation byte test for strict UTF-8 decoding. -/
def utf8Cont (b : Nat) : Bool := 0x80 ≤ b && b ≤ 0xBF

/-- Strict UTF-8 decoding of a byte list (Python `bytes.decode('utf-8')`):
rejects truncated sequences, stray continuation bytes, overlong forms,
surrogates and code points above U+10FFFF. -/
def utf8DecodeList : List Nat → Option (List Char)
  | [] => some []
  | b1 :: rest =>
    if b1 ≤ 0x7F then
      match utf8DecodeList rest with
      | some cs => some (Char.ofNat b1 :: cs)
      | none => none
    else if 0xC2 ≤ b1 && b1 ≤ 0xDF then
      match rest with
      | b2 :: rest2 =>
        if utf8Cont b2 then
          match utf8DecodeList rest2 with
          | some cs => some (Char.ofNat ((b1 - 0xC0) * 0x40 + (b2 - 0x80)) :: cs)
          | none => none
        else none
      | [] => none
    else if 0xE0 ≤ b1 && b1 ≤ 0xEF then
      match rest with
      | b2 :: b3 :: rest3 =>
        if (if b1 = 0xE0 then 0xA0 ≤ b2 && b2 ≤ 0xBF
            else if b1 = 0xED then 0x80 ≤ b2 && b2 ≤ 0x9F
            else utf8Cont b2) && utf8Cont b3 then
          match utf8DecodeList rest3 with
          | some cs =>
            some (Char.ofNat (((b1 - 0xE0) * 0x1000) + ((b2 - 0x80) * 0x40) + (b3 - 0x80)) :: cs)
          | none => none
        else none
      | _ => none
    else if 0xF0 ≤ b1 && b1 ≤ 0xF4 then
      match rest with
      | b2 :: b3 :: b4 :: rest4 =>
        if (if b1 = 0xF0 then 0x90 ≤ b2 && b2 ≤ 0xBF
            else if b1 = 0xF4 then 0x80 ≤ b2 && b2 ≤ 0x8F
            else utf8Cont b2) && utf8Cont b3 && utf8Cont b4 then
          match utf8DecodeList rest4 with
          | some cs =>
            some (Char.ofNat (((b1 - 0xF0) * 0x40000) + ((b2 - 0x80) * 0x1000) +
              ((b3 - 0x80) * 0x40) + (b4 - 0x80)) :: cs)
          | none => none
        else none
      | _ => none
    else none

/-- Strict UTF-8 decoding to a string; `none` models `UnicodeDecodeError`. -/
def utf8Decode (bs : List Nat) : Option String := (utf8DecodeList bs).map String.mk

/-- Trail byte test of a two-byte GBK sequence (0x40–0xFE except 0x7F). -/
def gbkTrail (b : Nat) : Bool := (0x40 ≤ b && b ≤ 0xFE) && b ≠ 0x7F

/-- Strict GBK decoding of a byte list (Python `bytes.decode('gbk')`),
modelled structurally: ASCII bytes decode to themselves and a lead byte
0x81–0xFE followed by a valid trail byte decodes to a two-byte character.
The concrete CJK code-point table is abstracted by an injective placeholder
mapping into valid scalar values; every byte sequence that is structurally
ill-formed (in particular any lone byte ≥ 0x80) is rejected, which is the
only aspect of GBK the verified claims depend on. -/
def gbkDecodeList : List Nat → Option (List Char)
  | [] => some []
  | b1 :: rest =>
    if b1 ≤ 0x7F then
      match gbkDecodeList rest with
      | some cs => some (Char.ofNat b1 :: cs)
      | none => none
    else if 0x81 ≤ b1 && b1 ≤ 0xFE then
      match rest with
      | b2 :: rest2 =>
        if gbkTrail b2 then
          match gbkDecodeList rest2 with
          | some cs => some (Char.ofNat (0x10000 + (b1 - 0x81) * 0xBF + (b2 - 0x40)) :: cs)
          | none => none
        else none
      | [] => none
    else none

/-- Strict GBK decoding to a string; `none` models `UnicodeDecodeError`. -/
def gbkDecode (bs : List Nat) : Option String := (gbkDecodeList bs).map String.mk

/-- Lossy latin1 decoding (`raw_data.decode('latin1', errors='replace')`):
each byte maps to the Unicode code point of the same value, so decoding is
total and the `errors='replace'` handler is never exercised. -/
def latin1Decode (bs : List Nat) : String := String.mk (bs.map (fun b => Char.ofNat (b % 256)))

/-- The candidate encoding list built in `get_diff`: `['utf-8', 'gbk']`. -/
def encodings : List String := ["utf-8", "gbk"]

/-- Strict decoding with one named codec (`raw_data.decode(encoding)`). -/
def decodeWith : String → List Nat → Option String
  | "utf-8", bs => utf8Decode bs
  | "gbk", bs => gbkDecode bs
  | _, _ => none

/-- The `for encoding in encodings` loop of `_decode_blob`: first strict
decoder that succeeds wins; `none` when every candidate raises. -/
def tryEncodings : List String → List Nat → Option String
  | [], _ => none
  | e :: rest, bs =>
    match decodeWith e bs with
    | some s => some s
    | none => tryEncodings rest bs

/-- The decoding chain of `_decode_blob` applied to the raw bytes:
strict utf-8, then strict gbk, then the total latin1 fallback. -/
def decodeBytes (bs : List Nat) : String :=
  match tryEncodings encodings bs with
  | some s => s
  | none => latin1Decode bs

/-- `GitDiffReviewer._decode_blob`: `None` blob passes through as `None`;
a binary-classified blob yields the fixed marker without reading its bytes;
otherwise the bytes are read (which may raise, modelled by `readFails`)
and decoded by the candidate chain with latin1 as last resort. -/
def decode_blob (blob : Option Blob) : Except Unit (Option String) :=
  match blob with
  | none => .ok none
  | some b =>
    if is_binary_file (some b) then .ok (some ("[二进制文件: " ++ b.path ++ "]"))
    else if b.readFails then .error ()
    else .ok (some (decodeBytes b.data))

/-- Line-boundary characters of Python `str.splitlines` (`\n`, `\r`, `\v`,
`\f`, the separators 0x1C–0x1E, NEL 0x85, LS U+2028 and PS U+2029). -/
def isLineBreakChar (c : Char) : Bool :=
  c = '\n' || c = '\r' || c.toNat = 0x0B || c.toNat = 0x0C ||
  c.toNat = 0x1C || c.toNat = 0x1D || c.toNat = 0x1E || c.toNat = 0x85 ||
  c.toNat = 0x2028 || c.toNat = 0x2029

/-- First pass of `splitlines(keepends=True)`: cut after every boundary
character (`acc` holds the reversed characters of the current line). -/
def splitlinesRaw : List Char → List Char → List String
  | [], acc => if acc.isEmpty then [] else [String.mk acc.reverse]
  | c :: rest, acc =>
    if isLineBreakChar c then String.mk (acc.reverse ++ [c]) :: splitlinesRaw rest []
    else splitlinesRaw rest (c :: acc)

/-- Second pass of `splitlines(keepends=True)`: a segment ending in `\r`
followed by a lone `"\n"` segment came from one `\r\n` boundary and is
rejoined into a single line. -/
def mergeCRLF : List String → List String
  | [] => []
  | [s] => [s]
  | s :: t :: rest =>
    if strEndsWith s "\r" && t = "\n" then (s ++ "\n") :: mergeCRLF rest
    else s :: mergeCRLF (t :: rest)

/-- Python `s.splitlines(keepends=True)` as used on decoded blob contents. -/
def splitlinesKeepends (s : String) : List String := mergeCRLF (splitlinesRaw s.data [])

/-- Whitespace characters stripped by Python `str.strip()` (ASCII part). -/
def pyIsSpace (c : Char) : Bool :=
  c = ' ' || c = '\t' || c = '\n' || c = '\r' || c.toNat = 0x0B || c.toNat = 0x0C

/-- Python `s.strip()`. -/
def pyStrip (s : String) : String :=
  String.mk (((s.data.dropWhile pyIsSpace).reverse.dropWhile pyIsSpace).reverse)

/-- Length of the longest common prefix run of two line lists. -/
def commonRunLen : List String → List String → Nat
  | x :: xs, y :: ys => if x = y then commonRunLen xs ys + 1 else 0
  | _, _ => 0

/-- The Python slice `l[lo:hi]` of a line list. -/
def sliceL (l : List String) (lo hi : Nat) : List String := (l.drop lo).take (hi - lo)

/-- Length of the matching run of `a[i:ahi]` against `b[j:bhi]` starting at
positions `i`, `j`. -/
def matchLenAt (a b : List String) (i j ahi bhi : Nat) : Nat :=
  commonRunLen (sliceL a i ahi) (sliceL b j bhi)

/-- Candidate start pairs scanned by `find_longest_match` over the window
`a[alo:ahi]` x `b[blo:bhi]`, in ascending `i` then ascending `j` order. -/
def flmCands (alo ahi blo bhi : Nat) : List (Nat × Nat) :=
  (List.range' alo (ahi - alo)).flatMap (fun i => (List.range' blo (bhi - blo)).map (fun j => (i, j)))

/-- One step of the longest-match scan: a candidate replaces the current
best only when strictly longer, which realises the documented tie-break
(earliest in `a`, then earliest in `b`). -/
def flmStep (a b : List String) (ahi bhi : Nat) (best : Nat × Nat × Nat) (ij : Nat × Nat) :
    Nat × Nat × Nat :=
  if best.2.2 < matchLenAt a b ij.1 ij.2 ahi bhi then (ij.1, ij.2, matchLenAt a b ij.1 ij.2 ahi bhi)
  else best

/-- `SequenceMatcher.find_longest_match(alo, ahi, blo, bhi)` per its
documented specification (no junk: the matcher is built with `isjunk=None`
and the inputs stay far below the autojunk threshold): of all maximal
matching blocks, the one starting earliest in `a`, then earliest in `b`. -/
def find_longest_match (a b : List String) (alo ahi blo bhi : Nat) : Nat × Nat × Nat :=
  (flmCands alo ahi blo bhi).foldl (flmStep a b ahi bhi) (alo, blo, 0)

/-- The recursive divide-and-conquer of `get_matching_blocks`, producing
maximal matching triples `(i, j, size)` in sorted order.  The fuel argument
only bounds the recursion depth; `interval length + 1` always suffices
because each recursive window is strictly smaller. -/
def mblocksF : Nat → List String → List String → Nat → Nat → Nat → Nat → List (Nat × Nat × Nat)
  | 0, _, _, _, _, _, _ => []
  | fuel + 1, a, b, alo, ahi, blo, bhi =>
    if (find_longest_match a b alo ahi blo bhi).2.2 = 0 then []
    else
      mblocksF fuel a b alo (find_longest_match a b alo ahi blo bhi).1 blo
          (find_longest_match a b alo ahi blo bhi).2.1 ++
        ((find_longest_match a b alo ahi blo bhi).1, (find_longest_match a b alo ahi blo bhi).2.1,
          (find_longest_match a b alo ahi blo bhi).2.2) ::
          mblocksF fuel a b
            ((find_longest_match a b alo ahi blo bhi).1 + (find_longest_match a b alo ahi blo bhi).2.2)
            ahi
            ((find_longest_match a b alo ahi blo bhi).2.1 + (find_longest_match a b alo ahi blo bhi).2.2)
            bhi

/-- The adjacency-merging sweep of `get_matching_blocks`: consecutive
blocks that abut in both sequences collapse into one. -/
def mergeAux (cur : Nat × Nat × Nat) : List (Nat × Nat × Nat) → List (Nat × Nat × Nat)
  | [] => [cur]
  | (i2, j2, k2) :: rest =>
    if cur.1 + cur.2.2 = i2 && cur.2.1 + cur.2.2 = j2 then mergeAux (cur.1, cur.2.1, cur.2.2 + k2) rest
    else cur :: mergeAux (i2, j2, k2) rest

/-- Merge adjacent matching blocks (second pass of `get_matching_blocks`). -/
def mergeAdjacent : List (Nat × Nat × Nat) → List (Nat × Nat × Nat)
  | [] => []
  | x :: rest => mergeAux x rest

/-- `SequenceMatcher.get_matching_blocks()`: sorted maximal blocks, adjacent
blocks merged, terminated by the sentinel `(len(a), len(b), 0)`. -/
def get_matching_blocks (a b : List String) : List (Nat × Nat × Nat) :=
  mergeAdjacent (mblocksF (a.length + 1) a b 0 a.length 0 b.length) ++ [(a.length, b.length, 0)]

/-- An opcode `(tag, i1, i2, j1, j2)` of `SequenceMatcher.get_opcodes()`. -/
abbrev Opcode := String × Nat × Nat × Nat × Nat

/-- Worker for `get_opcodes`: walks the matching blocks keeping the cursor
`(i, j)`, tagging the gap before each block and the block itself. -/
def opcodesAux : Nat → Nat → List (Nat × Nat × Nat) → List Opcode
  | _, _, [] => []
  | i, j, (ai, bj, size) :: rest =>
    (if i < ai && j < bj then [("replace", i, ai, j, bj)]
     else if i < ai then [("delete", i, ai, j, bj)]
     else if j < bj then [("insert", i, ai, j, bj)]
     else []) ++
    (if size = 0 then [] else [("equal", ai, ai + size, bj, bj + size)]) ++
    opcodesAux (ai + size) (bj + size) rest

/-- `SequenceMatcher.get_opcodes()`. -/
def get_opcodes (a b : List String) : List Opcode := opcodesAux 0 0 (get_matching_blocks a b)

/-- In `get_grouped_opcodes`: clamp a leading `equal` opcode to `n` context
lines. -/
def clampFirst (n : Nat) : List Opcode → List Opcode
  | [] => []
  | (tag, i1, i2, j1, j2) :: rest =>
    if tag = "equal" then (tag, max i1 (i2 - n), i2, max j1 (j2 - n), j2) :: rest
    else (tag, i1, i2, j1, j2) :: rest

/-- In `get_grouped_opcodes`: clamp a trailing `equal` opcode to `n` context
lines. -/
def clampLast (n : Nat) : List Opcode → List Opcode
  | [] => []
  | [(tag, i1, i2, j1, j2)] =>
    if tag = "equal" then [(tag, i1, min i2 (i1 + n), j1, min j2 (j1 + n))]
    else [(tag, i1, i2, j1, j2)]
  | x :: rest => x :: clampLast n rest

/-- Grouping loop of `get_grouped_opcodes`: a long `equal` stretch
(more than `2n` lines) ends the current group and starts the next; a final
group consisting of a single `equal` opcode is not yielded. -/
def groupsAux (n : Nat) : List Opcode → List Opcode → List (List Opcode)
  | group, [] =>
    match group with
    | [] => []
    | [g] => if g.1 = "equal" then [] else [[g]]
    | _ => [group]
  | group, (tag, i1, i2, j1, j2) :: rest =>
    if tag = "equal" && n + n < i2 - i1 then
      (group ++ [(tag, i1, min i2 (i1 + n), j1, min j2 (j1 + n))]) ::
        groupsAux n [(tag, max i1 (i2 - n), i2, max j1 (j2 - n), j2)] rest
    else groupsAux n (group ++ [(tag, i1, i2, j1, j2)]) rest

/-- `SequenceMatcher.get_grouped_opcodes(n)`: opcodes (a dummy `equal` when
there are none), leading/trailing context clamped, split into groups. -/
def get_grouped_opcodes (a b : List String) (n : Nat) : List (List Opcode) :=
  groupsAux n []
    (clampLast n (clampFirst n
      (if get_opcodes a b = [] then [("equal", 0, 1, 0, 1)] else get_opcodes a b)))

/-- `_format_range_unified(start, stop)` of `difflib`. -/
def format_range_unified (start stop : Nat) : String :=
  if stop - start = 1 then toString (start + 1)
  else toString (if stop - start = 0 then start else start + 1) ++ "," ++ toString (stop - start)

/-- The per-opcode line rendering inside a `unified_diff` group. -/
def renderOp (a b : List String) (op : Opcode) : List String :=
  if op.1 = "equal" then (sliceL a op.2.1 op.2.2.1).map (fun line => " " ++ line)
  else
    (if op.1 = "replace" || op.1 = "delete" then
      (sliceL a op.2.1 op.2.2.1).map (fun line => "-" ++ line)
     else []) ++
    (if op.1 = "replace" || op.1 = "insert" then
      (sliceL b op.2.2.2.1 op.2.2.2.2).map (fun line => "+" ++ line)
     else [])

/-- One group of `unified_diff`: the `@@ -r +r @@` hunk header (ranges from
the first and last opcode of the group) followed by the rendered lines. -/
def renderGroup (a b : List String) (lineterm : String) (group : List Opcode) : List String :=
  match group with
  | [] => []
  | first :: rest =>
    ("@@ -" ++ format_range_unified first.2.1 (rest.getLastD first).2.2.1 ++ " +" ++
        format_range_unified first.2.2.2.1 (rest.getLastD first).2.2.2.2 ++ " @@" ++ lineterm) ::
      (first :: rest).flatMap (renderOp a b)

/-- `difflib.unified_diff(a, b, fromfile, tofile, lineterm)` with `n=3` and
no dates, as called in `get_diff` (there with `lineterm=''`): no output at
all when there is no change group, otherwise the two `---`/`+++` header
lines followed by the rendered groups. -/
def unified_diff (a b : List String) (fromfile tofile lineterm : String) : List String :=
  match get_grouped_opcodes a b 3 with
  | [] => []
  | gs => ("--- " ++ fromfile ++ lineterm) :: ("+++ " ++ tofile ++ lineterm) ::
      gs.flatMap (renderGroup a b lineterm)

/-- The effective path label computed at the top of the per-item loop:
`"{a_path} -> {b_path}"` for renames, otherwise `b_path` if truthy else
`a_path` (which may itself be `None` or empty, i.e. falsy). -/
def filePathOf (it : DiffItem) : Option String :=
  if it.renamed_file then some (optPathStr it.a_path ++ " -> " ++ optPathStr it.b_path)
  else if pyFalsy it.b_path then it.a_path else it.b_path

/-- The kind dispatch of the per-item loop of `get_diff`, producing the
rendered block for one `DiffItem` (`none` when a required blob handle is
absent, so nothing is appended), or `Except.error` when reading a blob
raises.  New files render header plus full content; deleted files render a
bare header; everything else is line-diffed with `difflib.unified_diff`
over the decoded old/new contents. -/
def processRecord (it : DiffItem) (file_path : String) : Except Unit (Option String) :=
  if it.new_file then
    match decode_blob it.b_blob with
    | .error e => .error e
    | .ok none => .ok none
    | .ok (some content) => .ok (some ("新文件: " ++ file_path ++ "\n" ++ content ++ "\n\n"))
  else if it.deleted_file then .ok (some ("删除的文件: " ++ file_path ++ "\n\n"))
  else
    match decode_blob it.a_blob with
    | .error e => .error e
    | .ok old_content =>
      match decode_blob it.b_blob with
      | .error e => .error e
      | .ok new_content =>
        match old_content, new_content with
        | some oldc, some newc =>
          .ok (some ("修改文件: " ++ file_path ++ "\n" ++
            String.join (unified_diff (splitlinesKeepends oldc) (splitlinesKeepends newc)
              ("a/" ++ file_path) ("b/" ++ file_path) "") ++ "\n\n"))
        | _, _ => .ok none

/-- The mutable state of the enumeration loop in `get_diff`: the document
accumulated so far and the set of already-processed effective paths. -/
structure DiffState where
  diff_content : String
  processed_files : List String
deriving DecidableEq, Repr

/-- One iteration of the `for diff_item in diff_index` loop: a falsy path is
skipped; an already-processed path is skipped; otherwise the path is added
to `processed_files` first and the record is rendered, any exception being
caught at this single-record granularity (path stays marked, nothing is
appended, the loop continues). -/
def processItem (st : DiffState) (it : DiffItem) : DiffState :=
  if pyFalsy (filePathOf it) then st
  else
    if (filePathOf it).getD "" ∈ st.processed_files then st
    else
      match processRecord it ((filePathOf it).getD "") with
      | .error _ =>
        { st with processed_files := (filePathOf it).getD "" :: st.processed_files }
      | .ok none =>
        { st with processed_files := (filePathOf it).getD "" :: st.processed_files }
      | .ok (some block) =>
        { diff_content := st.diff_content ++ block,
          processed_files := (filePathOf it).getD "" :: st.processed_files }

/-- The whole enumeration loop of `get_diff`. -/
def processItems (items : List DiffItem) (st : DiffState) : DiffState :=
  items.foldl processItem st

/-- Observable outcome of `get_diff`: the returned value and the optional
file write `(path, utf-8 content)` performed by `open(output_file, 'w')`
(which creates or truncates, then overwrites). -/
structure GetDiffResult where
  result : Option String
  written : Option (String × String)
deriving DecidableEq, Repr

/-- `GitDiffReviewer.get_diff`: the repository interaction is abstracted to
its two inputs, the merge-base list returned by
`repo.merge_base(base_branch, feature_branch)` and the `DiffIndex` that
`fork_point.diff(feature_head, create_patch=True, ignore_blank_lines=True,
ignore_space_at_eol=True)` would enumerate for `merge_bases[0]`.  An empty
merge-base list returns `None` immediately (no write).  Otherwise the items
are processed in order; the document is written to `output_file` only when
that argument is truthy and the stripped document is non-empty, and the
returned value is the document, or `None` when it strips to empty. -/
def get_diff (merge_bases : List Nat) (diff_index : List DiffItem) (output_file : Option String) :
    GetDiffResult :=
  if merge_bases.isEmpty then { result := none, written := none }
  else
    { result :=
        if pyStrip (processItems diff_index ⟨"", []⟩).diff_content == "" then none
        else some (processItems diff_index ⟨"", []⟩).diff_content,
      written :=
        if pyFalsy output_file || pyStrip (processItems diff_index ⟨"", []⟩).diff_content == "" then
          none
        else some (output_file.getD "", (processItems diff_index ⟨"", []⟩).diff_content) }

/-- Scenario A of the specification: one diff item adding `foo.txt` whose
blob holds the utf-8 bytes of `"hello\n"`. -/
def addedFooItem : DiffItem :=
  { a_path := none, b_path := some "foo.txt", renamed_file := false, new_file := true,
    deleted_file := false, a_blob := none,
    b_blob := some { path := "foo.txt", data := [104, 101, 108, 108, 111, 10], readFails := false } }

/-- A modified item on `f.txt` whose old blob read raises an I/O error. -/
def badTxtItem : DiffItem :=
  { a_path := some "f.txt", b_path := some "f.txt", renamed_file := false, new_file := false,
    deleted_file := false, a_blob := some { path := "f.txt", data := [], readFails := true },
    b_blob := some { path := "f.txt", data := [104, 105], readFails := false } }

/-- A deletion item for the same path `f.txt` (would render a bare header). -/
def delTxtItem : DiffItem :=
  { a_path := some "f.txt", b_path := some "f.txt", renamed_file := false, new_file := false,
    deleted_file := true, a_blob := none, b_blob := none }

/-- An added record on `g.txt` whose new blob handle is absent. -/
def newNoBlobItem : DiffItem :=
  { a_path := none, b_path := some "g.txt", renamed_file := false, new_file := true,
    deleted_file := false, a_blob := none, b_blob := none }

/-- A renamed record of a binary file `a.png -> b.png` with differing
payloads (counterexample input for the binary-rendering claim). -/
def renamedPngItem : DiffItem :=
  { a_path := some "a.png", b_path := some "b.png", renamed_file := true, new_file := false,
    deleted_file := false,
    a_blob := some { path := "a.png", data := [137, 80, 78, 71], readFails := false },
    b_blob := some { path := "b.png", data := [137, 80, 78, 71, 0], readFails := false } }

/-- A modified record on the binary path `img.png`; `readFails := true` on
both sides, exercising that binary classification precedes any read. -/
def modPngItem : DiffItem :=
  { a_path := some "img.png", b_path := some "img.png", renamed_file := false, new_file := false,
    deleted_file := false,
    a_blob := some { path := "img.png", data := [1, 2, 3], readFails := true },
    b_blob := some { path := "img.png", data := [9], readFails := true } }

/-- A modified record on `f.txt` whose sides differ only by a trailing
space: old content `"hello \n"`, new content `"hello\n"`. -/
def wsTxtItem : DiffItem :=
  { a_path := some "f.txt", b_path := some "f.txt", renamed_file := false, new_file := false,
    deleted_file := false,
    a_blob := some { path := "f.txt", data := [104, 101, 108, 108, 111, 32, 10], readFails := false },
    b_blob := some { path := "f.txt", data := [104, 101, 108, 108, 111, 10], readFails := false } }


/-- `find_longest_match` on two equal one-line windows finds the whole line. -/
theorem flm_single_eq (m : String) : find_longest_match [m] [m] 0 1 0 1 = (0, 0, 1) := by
  simp [find_longest_match, flmCands, flmStep, matchLenAt, sliceL, commonRunLen, List.range']

/-- `find_longest_match` on two distinct one-line windows finds nothing. -/
theorem flm_single_ne (m m' : String) (h : m ≠ m') :
    find_longest_match [m] [m'] 0 1 0 1 = (0, 0, 0) := by
  simp [find_longest_match, flmCands, flmStep, matchLenAt, sliceL, commonRunLen, List.range', h]

/-- Rendering of the numeral 1 (hunk ranges of one-line files). -/
theorem toString_one : toString (1 : Nat) = "1" := rfl

/-- `unified_diff` on identical one-line inputs emits nothing at all: the
single `equal` group is dropped, so not even the `---`/`+++` headers appear. -/
theorem unified_diff_single_eq (m f g lt : String) : unified_diff [m] [m] f g lt = [] := by
  simp [unified_diff, get_grouped_opcodes, get_opcodes, get_matching_blocks, mblocksF,
    flm_single_eq, mergeAdjacent, mergeAux, opcodesAux, clampFirst, clampLast, groupsAux,
    find_longest_match, flmCands, flmStep, matchLenAt, sliceL, commonRunLen, List.range']

/-- `unified_diff` on two distinct one-line inputs: the two header lines, the
`@@ -1 +1 @@` hunk header, and the `-`/`+` pair for the changed line. -/
theorem unified_diff_single_ne (m m' f g lt : String) (h : m ≠ m') :
    unified_diff [m] [m'] f g lt =
      ["--- " ++ f ++ lt, "+++ " ++ g ++ lt, "@@ -1 +1 @@" ++ lt, "-" ++ m, "+" ++ m'] := by
  simp [unified_diff, get_grouped_opcodes, get_opcodes, get_matching_blocks, mblocksF,
    flm_single_ne, mergeAdjacent, mergeAux, opcodesAux, clampFirst, clampLast, groupsAux,
    find_longest_match, flmCands, flmStep, matchLenAt, sliceL, commonRunLen, List.range', h,
    renderGroup, renderOp, format_range_unified, toString_one]

/-- Claim C3 (confirmed): for every non-null blob whose bytes are readable,
decoding is total and never raises — `decode_blob` returns a string, and on
the byte level the chain tries strict utf-8 first, then strict gbk, and when
both fail falls back to the total lossy latin1 decoder. -/
theorem c3_decode_total_and_ordered :
    (∀ b : Blob, b.readFails = false → ∃ s, decode_blob (some b) = Except.ok (some s)) ∧
    (∀ bs s, utf8Decode bs = some s → decodeBytes bs = s) ∧
    (∀ bs s, utf8Decode bs = none → gbkDecode bs = some s → decodeBytes bs = s) ∧
    (∀ bs, utf8Decode bs = none → gbkDecode bs = none → decodeBytes bs = latin1Decode bs) := by
  refine ⟨?_, ?_, ?_, ?_⟩
  · intro b hb
    by_cases h : is_binary_file (some b)
    · refine ⟨"[二进制文件: " ++ b.path ++ "]", ?_⟩
      simp [decode_blob, h]
    · refine ⟨decodeBytes b.data, ?_⟩
      simp [decode_blob, h, hb]
  · intro bs s h
    simp [decodeBytes, tryEncodings, encodings, decodeWith, h]
  · intro bs s h1 h2
    simp [decodeBytes, tryEncodings, encodings, decodeWith, h1, h2]
  · intro bs h1 h2
    simp [decodeBytes, tryEncodings, encodings, decodeWith, h1, h2]

/-- Witness for C3: the byte 0xFF is valid neither as utf-8 nor as gbk, yet
decoding the blob holding it succeeds. -/
theorem c3_witness :
    ∃ s, decode_blob (some { path := "x.txt", data := [255], readFails := false }) =
      Except.ok (some s) :=
  c3_decode_total_and_ordered.1 { path := "x.txt", data := [255], readFails := false } rfl

/-- Claim C4 (confirmed): when the merge-base list is empty (no common
ancestor), `get_diff` returns `None` at once — no document and no file
write — instead of raising. -/
theorem c4_no_common_ancestor_empty_result (diff_index : List DiffItem)
    (output_file : Option String) :
    get_diff [] diff_index output_file = { result := none, written := none } := rfl

/-- Claim C5 (confirmed): whenever a truthy destination path is supplied
(and a fork point exists, so the write is reachable at all), the document is
written there — overwriting — exactly when it does not strip to the empty
string; an empty document performs no write, so no file is created or
truncated. -/
theorem c5_persist_iff_nonempty (merge_bases : List Nat) (diff_index : List DiffItem)
    (f : String) (hmb : merge_bases ≠ []) (hf : f ≠ "") :
    (pyStrip (processItems diff_index ⟨"", []⟩).diff_content = "" →
      (get_diff merge_bases diff_index (some f)).written = none) ∧
    (pyStrip (processItems diff_index ⟨"", []⟩).diff_content ≠ "" →
      (get_diff merge_bases diff_index (some f)).written =
        some (f, (processItems diff_index ⟨"", []⟩).diff_content)) := by
  have hne : merge_bases.isEmpty = false := by
    cases merge_bases with
    | nil => exact absurd rfl hmb
    | cons x xs => rfl
  constructor
  · intro h
    simp [get_diff, hne, h, pyFalsy]
  · intro h
    simp [get_diff, hne, h, pyFalsy, hf]

/-- Witness for C5: with one added file the document is non-empty and is
written to the requested destination. -/
theorem c5_witness :
    (get_diff [0] [addedFooItem] (some "diff.txt")).written =
      some ("diff.txt", "新文件: foo.txt\nhello\n\n\n") :=
  (c5_persist_iff_nonempty [0] [addedFooItem] "diff.txt" (by decide) (by decide)).2 (by decide)

/-- Claim C6 (confirmed): scenario A — the feature branch adds exactly
`foo.txt` containing `"hello\n"` — produces the single-block document
`新文件: foo.txt\nhello\n\n\n` and nothing else. -/
theorem c6_scenario_added_foo :
    get_diff [0] [addedFooItem] none =
      { result := some "新文件: foo.txt\nhello\n\n\n", written := none } := by decide

/-- Claim C7 (confirmed): a record whose effective path has already been
processed is silently dropped — deleting it from the enumeration changes
nothing, so no path identity contributes twice and the first occurrence
wins. -/
theorem c7_duplicate_paths_dropped (xs ys : List DiffItem) (dup : DiffItem) (st : DiffState)
    (p : String) (hp : filePathOf dup = some p) (hne : p ≠ "")
    (hmem : p ∈ (processItems xs st).processed_files) :
    processItems (xs ++ dup :: ys) st = processItems (xs ++ ys) st := by
  have hskip : processItem (processItems xs st) dup = processItems xs st := by
    simp [processItem, hp, pyFalsy, hne, hmem]
  simp only [processItems] at hskip ⊢
  rw [List.foldl_append, List.foldl_append, List.foldl_cons, hskip]

/-- Witness for C7: processing the same added file twice equals processing
it once. -/
theorem c7_witness :
    processItems ([addedFooItem] ++ addedFooItem :: []) ⟨"", []⟩ =
      processItems ([addedFooItem] ++ []) ⟨"", []⟩ :=
  c7_duplicate_paths_dropped [addedFooItem] [] addedFooItem ⟨"", []⟩ "foo.txt"
    (by decide) (by decide) (by decide)

/-- Claim C8 (confirmed): an error raised while processing one record is
caught at that record's granularity — the record only marks its path as
processed and contributes no text, and the remaining records are processed
normally, so the run still produces a document. -/
theorem c8_error_isolated_to_record (xs ys : List DiffItem) (bad : DiffItem) (st : DiffState)
    (p : String) (hp : filePathOf bad = some p) (hne : p ≠ "")
    (hnot : p ∉ (processItems xs st).processed_files)
    (herr : processRecord bad p = Except.error ()) :
    processItems (xs ++ bad :: ys) st =
      processItems ys
        { diff_content := (processItems xs st).diff_content,
          processed_files := p :: (processItems xs st).processed_files } := by
  have hstep : processItem (processItems xs st) bad =
      { diff_content := (processItems xs st).diff_content,
        processed_files := p :: (processItems xs st).processed_files } := by
    simp [processItem, hp, pyFalsy, hne, hnot, herr]
  simp only [processItems] at hstep ⊢
  rw [List.foldl_append, List.foldl_cons, hstep]

/-- Witness for C8: a lone record whose old blob read raises leaves the
document empty but its path marked, and the run terminates normally. -/
theorem c8_witness :
    processItems ([] ++ badTxtItem :: []) ⟨"", []⟩ =
      { diff_content := "", processed_files := ["f.txt"] } :=
  c8_error_isolated_to_record [] [] badTxtItem ⟨"", []⟩ "f.txt"
    (by decide) (by decide) (by decide) (by rfl)

/-- Claim C9 (confirmed): the effective path is marked as processed before
the record is rendered, so when rendering raises and the record is skipped,
every later record with the same path is dropped as well, even though no
block was ever emitted for that path. -/
theorem c9_marked_before_render (bad dup : DiffItem) (ys : List DiffItem) (st : DiffState)
    (p : String) (hp1 : filePathOf bad = some p) (hp2 : filePathOf dup = some p)
    (hne : p ≠ "") (hnot : p ∉ st.processed_files)
    (herr : processRecord bad p = Except.error ()) :
    processItems (bad :: dup :: ys) st =
      processItems ys
        { diff_content := st.diff_content, processed_files := p :: st.processed_files } := by
  have h1 : processItem st bad =
      { diff_content := st.diff_content, processed_files := p :: st.processed_files } := by
    simp [processItem, hp1, pyFalsy, hne, hnot, herr]
  have h2 : processItem
      { diff_content := st.diff_content, processed_files := p :: st.processed_files } dup =
      { diff_content := st.diff_content, processed_files := p :: st.processed_files } := by
    simp [processItem, hp2, pyFalsy, hne]
  simp [processItems, List.foldl_cons, h1, h2]

/-- Witness for C9: after the failing record on `f.txt`, a following
deletion record for `f.txt` — which alone would render a header block — is
dropped, and the document stays empty. -/
theorem c9_witness :
    processItems (badTxtItem :: delTxtItem :: []) ⟨"", []⟩ =
      { diff_content := "", processed_files := ["f.txt"] } :=
  c9_marked_before_render badTxtItem delTxtItem [] ⟨"", []⟩ "f.txt"
    (by decide) (by decide) (by decide) (by decide) (by rfl)

/-- Claim C10 (confirmed): a record missing a required blob handle — the new
blob of an added file, or either blob of a modified/renamed file — emits no
block at all, not even a header; its path is still marked and processing
continues silently. -/
theorem decode_blob_none : decode_blob none = Except.ok none := rfl

theorem c10_missing_blob_silent_skip (it : DiffItem) (st : DiffState) (p : String)
    (hp : filePathOf it = some p) (hne : p ≠ "") (hnot : p ∉ st.processed_files)
    (hmiss : (it.new_file = true ∧ it.b_blob = none) ∨
      (it.new_file = false ∧ it.deleted_file = false ∧ (it.a_blob = none ∨ it.b_blob = none))) :
    processItem st it =
      { diff_content := st.diff_content, processed_files := p :: st.processed_files } := by
  rcases hmiss with ⟨hn, hb⟩ | ⟨hn, hd, hab⟩
  · have hrec : processRecord it p = Except.ok none := by
      simp [processRecord, hn, hb, decode_blob]
    simp [processItem, hp, pyFalsy, hne, hnot, hrec]
  · rcases hab with ha | hb
    · cases hdb : decode_blob it.b_blob with
      | error e =>
        have hrec : processRecord it p = Except.error e := by
          simp [processRecord, hn, hd, ha, decode_blob_none, hdb]
        cases e
        simp [processItem, hp, pyFalsy, hne, hnot, hrec]
      | ok v =>
        have hrec : processRecord it p = Except.ok none := by
          cases v <;> simp [processRecord, hn, hd, ha, decode_blob_none, hdb]
        simp [processItem, hp, pyFalsy, hne, hnot, hrec]
    · cases hda : decode_blob it.a_blob with
      | error e =>
        have hrec : processRecord it p = Except.error e := by
          simp [processRecord, hn, hd, hda]
        cases e
        simp [processItem, hp, pyFalsy, hne, hnot, hrec]
      | ok v =>
        have hrec : processRecord it p = Except.ok none := by
          cases v <;> simp [processRecord, hn, hd, hb, decode_blob_none, hda]
        simp [processItem, hp, pyFalsy, hne, hnot, hrec]

/-- Witness for C10: the added record with no new blob leaves the document
untouched and only marks `g.txt`. -/
theorem c10_witness :
    processItem ⟨"", []⟩ newNoBlobItem =
      { diff_content := "", processed_files := ["g.txt"] } :=
  c10_missing_blob_silent_skip newNoBlobItem ⟨"", []⟩ "g.txt"
    (by decide) (by decide) (by decide) (Or.inl ⟨rfl, rfl⟩)

/-- Counterexample to claim C1: for the renamed binary record
`a.png -> b.png` the rendered block is not "header plus a binary-content
notice" — a line-level comparison of the two marker strings is performed and
the block contains a `-` line and a `+` line produced from the binary sides. -/
theorem c1_counterexample :
    processItem { diff_content := "", processed_files := [] } renamedPngItem =
      { diff_content :=
          "修改文件: a.png -> b.png\n--- a/a.png -> b.png+++ b/a.png -> b.png@@ -1 +1 @@-[二进制文件: a.png]+[二进制文件: b.png]\n\n",
        processed_files := ["a.png -> b.png"] } ∧
    "-[二进制文件: a.png]" ∈ unified_diff ["[二进制文件: a.png]"] ["[二进制文件: b.png]"]
      "a/a.png -> b.png" "b/a.png -> b.png" "" ∧
    "+[二进制文件: b.png]" ∈ unified_diff ["[二进制文件: a.png]"] ["[二进制文件: b.png]"]
      "a/a.png -> b.png" "b/a.png -> b.png" "" := by decide

/-- Claim C1 as amended: when a side of a Modified/Renamed record is binary,
its payload is never read or decoded — it is replaced by the fixed notice
string `[二进制文件: <path>]` — and the ordinary line-level comparison then
runs on the notice strings instead of the payloads.  In particular, for a
Modified binary record whose path is unchanged the two notices coincide, so
the block is exactly the header with an empty hunk, independently of the
payload bytes and even of whether the payloads are readable. -/
theorem c1_amended_binary_sides (p : String) (d1 d2 : List Nat) (r1 r2 : Bool)
    (st : DiffState) (hbin : isBinaryPath p = true) (hp : p ≠ "")
    (hnew : p ∉ st.processed_files)
    (hsplit : splitlinesKeepends ("[二进制文件: " ++ p ++ "]") = ["[二进制文件: " ++ p ++ "]"]) :
    processItem st
      { a_path := some p, b_path := some p, renamed_file := false, new_file := false,
        deleted_file := false, a_blob := some { path := p, data := d1, readFails := r1 },
        b_blob := some { path := p, data := d2, readFails := r2 } } =
      { diff_content := st.diff_content ++ ("修改文件: " ++ p ++ "\n" ++ "\n\n"),
        processed_files := p :: st.processed_files } := by
  have hdec1 : decode_blob (some { path := p, data := d1, readFails := r1 }) =
      Except.ok (some ("[二进制文件: " ++ p ++ "]")) := by
    simp [decode_blob, is_binary_file, hp, hbin]
  have hdec2 : decode_blob (some { path := p, data := d2, readFails := r2 }) =
      Except.ok (some ("[二进制文件: " ++ p ++ "]")) := by
    simp [decode_blob, is_binary_file, hp, hbin]
  have hrec : processRecord
      { a_path := some p, b_path := some p, renamed_file := false, new_file := false,
        deleted_file := false, a_blob := some { path := p, data := d1, readFails := r1 },
        b_blob := some { path := p, data := d2, readFails := r2 } } p =
      Except.ok (some ("修改文件: " ++ p ++ "\n" ++ "\n\n")) := by
    simp [processRecord, hdec1, hdec2, hsplit, unified_diff_single_eq, String.join]
  simp [processItem, filePathOf, pyFalsy, hp, hnew, hrec]

/-- Witness for C1 (amended): concrete binary modified record on `img.png`
with unreadable, differing payloads still renders header plus empty hunk. -/
theorem c1_amended_witness :
    processItem { diff_content := "", processed_files := [] } modPngItem =
      { diff_content := "修改文件: img.png\n\n\n", processed_files := ["img.png"] } :=
  c1_amended_binary_sides "img.png" [1, 2, 3] [9] true true
    { diff_content := "", processed_files := [] } (by decide) (by decide) (by decide) (by decide)

/-- Counterexample to claim C2: a Modified record whose two sides differ only
by a trailing space renders a NON-empty hunk — the whitespace-only
suppression options are passed to the tree-diff enumeration, not applied by
the renderer, which re-diffs the decoded contents with `difflib`. -/
theorem c2_counterexample :
    processItem { diff_content := "", processed_files := [] } wsTxtItem =
      { diff_content :=
          "修改文件: f.txt\n--- a/f.txt+++ b/f.txt@@ -1 +1 @@-hello \n+hello\n\n\n",
        processed_files := ["f.txt"] } ∧
    unified_diff (splitlinesKeepends "hello \n") (splitlinesKeepends "hello\n")
      "a/f.txt" "b/f.txt" "" ≠ [] := by decide

/-- Claim C2 as amended: the whitespace-suppression flags are handed to the
enumeration step only; the renderer performs no whitespace suppression, so a
Modified record whose decoded one-line contents differ — even only in
whitespace — renders a non-empty hunk whose `-`/`+` lines exhibit the
difference verbatim. -/
theorem c2_amended_rendering_not_suppressed (p oldText newText s t : String)
    (d1 d2 : List Nat) (st : DiffState) (hp : p ≠ "") (hnb : isBinaryPath p = false)
    (hnew : p ∉ st.processed_files)
    (h1 : utf8Decode d1 = some oldText) (h2 : utf8Decode d2 = some newText)
    (hs1 : splitlinesKeepends oldText = [s]) (hs2 : splitlinesKeepends newText = [t])
    (hst : s ≠ t) :
    processItem st
      { a_path := some p, b_path := some p, renamed_file := false, new_file := false,
        deleted_file := false, a_blob := some { path := p, data := d1, readFails := false },
        b_blob := some { path := p, data := d2, readFails := false } } =
      { diff_content := st.diff_content ++ ("修改文件: " ++ p ++ "\n" ++
          String.join (unified_diff [s] [t] ("a/" ++ p) ("b/" ++ p) "") ++ "\n\n"),
        processed_files := p :: st.processed_files } ∧
    unified_diff [s] [t] ("a/" ++ p) ("b/" ++ p) "" =
      ["--- " ++ ("a/" ++ p), "+++ " ++ ("b/" ++ p), "@@ -1 +1 @@", "-" ++ s, "+" ++ t] := by
  have hdec1 : decode_blob (some { path := p, data := d1, readFails := false }) =
      Except.ok (some oldText) := by
    simp [decode_blob, is_binary_file, hp, hnb, decodeBytes, tryEncodings, encodings,
      decodeWith, h1]
  have hdec2 : decode_blob (some { path := p, data := d2, readFails := false }) =
      Except.ok (some newText) := by
    simp [decode_blob, is_binary_file, hp, hnb, decodeBytes, tryEncodings, encodings,
      decodeWith, h2]
  constructor
  · have hrec : processRecord
        { a_path := some p, b_path := some p, renamed_file := false, new_file := false,
          deleted_file := false, a_blob := some { path := p, data := d1, readFails := false },
          b_blob := some { path := p, data := d2, readFails := false } } p =
        Except.ok (some ("修改文件: " ++ p ++ "\n" ++
          String.join (unified_diff [s] [t] ("a/" ++ p) ("b/" ++ p) "") ++ "\n\n")) := by
      simp [processRecord, hdec1, hdec2, hs1, hs2]
    simp [processItem, filePathOf, pyFalsy, hp, hnew, hrec]
  · rw [unified_diff_single_ne s t ("a/" ++ p) ("b/" ++ p) "" hst]
    simp

/-- Witness for C2 (amended): the trailing-space record on `f.txt` renders
the block with the `-hello \n` / `+hello\n` hunk. -/
theorem c2_amended_witness :
    processItem { diff_content := "", processed_files := [] } wsTxtItem =
      { diff_content :=
          "修改文件: f.txt\n--- a/f.txt+++ b/f.txt@@ -1 +1 @@-hello \n+hello\n\n\n",
        processed_files := ["f.txt"] } ∧
    unified_diff ["hello \n"] ["hello\n"] ("a/" ++ "f.txt") ("b/" ++ "f.txt") "" =
      ["--- " ++ ("a/" ++ "f.txt"), "+++ " ++ ("b/" ++ "f.txt"), "@@ -1 +1 @@",
       "-" ++ "hello \n", "+" ++ "hello\n"] :=
  c2_amended_rendering_not_suppressed "f.txt" "hello \n" "hello\n" "hello \n" "hello\n"
    [104, 101, 108, 108, 111, 32, 10] [104, 101, 108, 108, 111, 10]
    { diff_content := "", processed_files := [] }
    (by decide) (by decide) (by decide) (by decide) (by decide) (by decide) (by decide)
    (by decide)
